import Mathlib

/-!
Shallow embedding of the easypam library (src/lib.rs): a PAM authentication
bridge exposing the host PAM stack as a worker-pool service with a
channel-based conversation API.  Definitions mirror the Rust source; the few
facts about the host PAM convention that are external to the repository are
marked as modelled from the spec.
-/

set_option maxRecDepth 4000

namespace EasyPam

/-- PAM message style for a masked prompt, as defined in src/lib.rs line 12. -/
def PAM_PROMPT_ECHO_OFF : Int := 1

/-- PAM message style for a visible prompt, as defined in src/lib.rs line 13. -/
def PAM_PROMPT_ECHO_ON : Int := 0

/-- PAM message style for an error status, as defined in src/lib.rs line 14. -/
def PAM_ERROR_MSG : Int := 2

/-- PAM message style for an informational status, as defined in src/lib.rs line 15. -/
def PAM_TEXT_INFO : Int := 3

/-- Modelled from the spec: the host authentication stack's published PAM
calling-convention style value for a masked prompt (Linux-PAM
`security/_pam_types.h`, `PAM_PROMPT_ECHO_OFF`), external to this repository. -/
def published_PROMPT_ECHO_OFF : Int := 1

/-- Modelled from the spec: the host authentication stack's published PAM
calling-convention style value for a visible prompt (Linux-PAM
`security/_pam_types.h`, `PAM_PROMPT_ECHO_ON`), external to this repository. -/
def published_PROMPT_ECHO_ON : Int := 2

/-- Modelled from the spec: the host authentication stack's published PAM
calling-convention style value for an error status (Linux-PAM
`security/_pam_types.h`, `PAM_ERROR_MSG`), external to this repository. -/
def published_ERROR_MSG : Int := 3

/-- Modelled from the spec: the host authentication stack's published PAM
calling-convention style value for an informational status (Linux-PAM
`security/_pam_types.h`, `PAM_TEXT_INFO`), external to this repository. -/
def published_TEXT_INFO : Int := 4

/-- The error taxonomy of the library (src/lib.rs lines 17-29).  Payload
strings carry the formatted message of the underlying error. -/
inductive Error where
  | Timeout : Error
  | Io : String → Error
  | Access : String → Error
  | Failed : String → Error
  | Library : String → Error
deriving DecidableEq, Repr

/-- Discriminator for the `Failed` variant of the error taxonomy. -/
def Error.isFailed : Error → Bool
  | .Failed _ => true
  | _ => false

/-- Discriminator for the `Library` variant of the error taxonomy. -/
def Error.isLibrary : Error → Bool
  | .Library _ => true
  | _ => false

/-- Discriminator for the `Access` variant of the error taxonomy. -/
def Error.isAccess : Error → Bool
  | .Access _ => true
  | _ => false

/-- The low-level failures that the library converts into its error taxonomy:
`libloading::Error` from `Library::new` and `lib.get` (src/lib.rs lines
246-264), `rtsc::Error` from the bounded channels, `oneshot` receive errors
and timeouts, and `std::io::Error` from thread spawning. -/
inductive LowLevelFailure where
  | libloadingErr : String → LowLevelFailure
  | rtscErr : String → LowLevelFailure
  | oneshotRecvErr : String → LowLevelFailure
  | oneshotRecvTimeout : LowLevelFailure
  | ioErr : String → LowLevelFailure
deriving DecidableEq, Repr

/-- The `From` conversions of src/lib.rs lines 27-28 and 44-60 together with
the `?` operator in `pam_worker`: each low-level failure is mapped to the
error-taxonomy variant the code assigns it.  `libloading::Error` is covered
by the `Library(#[from] libloading::Error)` variant (src/lib.rs lines 27-28). -/
def classify : LowLevelFailure → Error
  | .libloadingErr s => Error.Library s
  | .rtscErr s => Error.Failed s
  | .oneshotRecvErr s => Error.Failed s
  | .oneshotRecvTimeout => Error.Timeout
  | .ioErr s => Error.Io s

/-- A duration, modelling `std::time::Duration` by whole seconds (the code
only ever builds durations with `Duration::from_secs`). -/
structure Duration where
  secs : Nat
deriving DecidableEq, Repr

/-- Builds a duration from whole seconds, as `Duration::from_secs`. -/
def Duration.from_secs (n : Nat) : Duration := ⟨n⟩

/-- Configuration carried by `AuthenticatorBuilder` (src/lib.rs lines 93-98). -/
structure AuthenticatorBuilder where
  workers : Nat
  queue_size : Nat
  timeout : Duration
  chat_timeout : Duration
deriving DecidableEq, Repr

/-- The `Default` impl of `AuthenticatorBuilder` (src/lib.rs lines 100-109). -/
def AuthenticatorBuilder.defaultConfig : AuthenticatorBuilder :=
  { workers := 1
    queue_size := 10
    timeout := Duration.from_secs 5
    chat_timeout := Duration.from_secs 60 }

/-- `AuthenticatorBuilder::new`, which returns `Self::default()`
(src/lib.rs lines 112-114). -/
def AuthenticatorBuilder.new : AuthenticatorBuilder :=
  AuthenticatorBuilder.defaultConfig

/-- The message type delivered on a conversation's stream
(src/lib.rs lines 203-212). -/
inductive Message where
  | Echo : String → Message
  | NoEcho : String → Message
  | Info : String → Message
  | Error : String → Message
  | AuthenticationFailed : Message
  | ValidationFailed : Message
  | Authenticated : Message
deriving DecidableEq, Repr

/-- A message is terminal when it ends the conversation stream:
`Authenticated`, `AuthenticationFailed` or `ValidationFailed` (spec section 3). -/
def Message.isTerminal : Message → Bool
  | .AuthenticationFailed => true
  | .ValidationFailed => true
  | .Authenticated => true
  | _ => false

/-- A native PAM message record (`struct PamMessage`, src/lib.rs lines 67-71):
a style code and the bytes of the NUL-terminated prompt text, terminator
excluded (the bytes reachable from the `*const c_char`). -/
structure PamMessage where
  msg_style : Int
  msg : List Nat
deriving DecidableEq, Repr

/-- A native PAM response record (`struct PamResponse`, src/lib.rs lines
73-77).  `resp = none` models the null pointer left by `calloc`'s
zero-initialisation; `some s` models a `strdup`-ed answer string. -/
structure PamResponse where
  resp : Option String
  resp_retcode : Int
deriving DecidableEq, Repr

/-- The Unicode replacement character used for invalid UTF-8 sequences. -/
def replacementChar : Char := Char.ofNat 0xFFFD

/-- Whether a byte is a UTF-8 continuation byte (`0x80..0xBF`). -/
def isContByte (b : Nat) : Bool := 0x80 ≤ b && b ≤ 0xBF

/-- The admissible second byte of a multi-byte UTF-8 sequence, which depends
on the lead byte (surrogate and overlong exclusion). -/
def secondByteOK (b c : Nat) : Bool :=
  if b = 0xE0 then 0xA0 ≤ c && c ≤ 0xBF
  else if b = 0xED then 0x80 ≤ c && c ≤ 0x9F
  else if b = 0xF0 then 0x90 ≤ c && c ≤ 0xBF
  else if b = 0xF4 then 0x80 ≤ c && c ≤ 0x8F
  else isContByte c

/-- Fuel-indexed UTF-8 decoder with U+FFFD replacement of each maximal
invalid subpart, modelling `CStr::to_string_lossy`.  The fuel only needs to
cover the byte count; each step consumes at least one byte. -/
def utf8LossyAux : Nat → List Nat → List Char
  | 0, _ => []
  | _, [] => []
  | fuel + 1, b :: rest =>
    if b < 0x80 then Char.ofNat b :: utf8LossyAux fuel rest
    else if 0xC2 ≤ b && b ≤ 0xDF then
      match rest with
      | [] => [replacementChar]
      | c1 :: rest2 =>
        if isContByte c1 then
          Char.ofNat ((b - 0xC0) * 64 + (c1 - 0x80)) :: utf8LossyAux fuel rest2
        else replacementChar :: utf8LossyAux fuel rest
    else if 0xE0 ≤ b && b ≤ 0xEF then
      match rest with
      | [] => [replacementChar]
      | c1 :: rest2 =>
        if secondByteOK b c1 then
          match rest2 with
          | [] => [replacementChar]
          | c2 :: rest3 =>
            if isContByte c2 then
              Char.ofNat ((b - 0xE0) * 4096 + (c1 - 0x80) * 64 + (c2 - 0x80)) ::
                utf8LossyAux fuel rest3
            else replacementChar :: utf8LossyAux fuel rest2
        else replacementChar :: utf8LossyAux fuel rest
    else if 0xF0 ≤ b && b ≤ 0xF4 then
      match rest with
      | [] => [replacementChar]
      | c1 :: rest2 =>
        if secondByteOK b c1 then
          match rest2 with
          | [] => [replacementChar]
          | c2 :: rest3 =>
            if isContByte c2 then
              match rest3 with
              | [] => [replacementChar]
              | c3 :: rest4 =>
                if isContByte c3 then
                  Char.ofNat ((b - 0xF0) * 262144 + (c1 - 0x80) * 4096 +
                      (c2 - 0x80) * 64 + (c3 - 0x80)) :: utf8LossyAux fuel rest4
                else replacementChar :: utf8LossyAux fuel rest3
            else replacementChar :: utf8LossyAux fuel rest2
        else replacementChar :: utf8LossyAux fuel rest
    else replacementChar :: utf8LossyAux fuel rest

/-- Lossy UTF-8 conversion of a byte string, modelling
`CStr::to_string_lossy().into_owned()` as used in `conv`
(src/lib.rs lines 382-384 and the three analogous sites). -/
def toStringLossy (bs : List Nat) : String := String.mk (utf8LossyAux bs.length bs)

/-- Whether a Rust `String` contains an interior NUL character, which is
exactly the condition under which `CString::new` fails
(src/lib.rs lines 271, 281, 450). -/
def hasNulByte (s : String) : Bool := s.toList.contains (Char.ofNat 0)

/-- Environment of one `conv` invocation: the outcome of each
`msg_tx.send_blocking_timeout` in order (`true` = delivered within `timeout`),
the outcome of each `input_rx.recv_blocking_timeout` in order (`none` =
timeout or disconnect), and whether the `libc::calloc` of the response array
returns non-null. -/
structure ConvEnv where
  pubResults : List Bool
  answers : List (Option String)
  allocOK : Bool
deriving DecidableEq, Repr

/-- The record loop of `conv` (src/lib.rs lines 378-458).  Returns the
messages actually delivered on `msg_tx`, and `some replies` (the `reply_msgs`
vector, in push order) when every record was processed, `none` when the loop
aborted with `PAM_CONV_ERR`. -/
def convLoop : List PamMessage → List Bool → List (Option String) →
    List Message × Option (List String)
  | [], _, _ => ([], some [])
  | m :: ms, pubs, ans =>
    if m.msg_style = PAM_PROMPT_ECHO_OFF then
      if pubs.headD false then
        match ans.headD none with
        | some input =>
          if hasNulByte input then ([Message.NoEcho (toStringLossy m.msg)], none)
          else
            let r := convLoop ms pubs.tail ans.tail
            (Message.NoEcho (toStringLossy m.msg) :: r.1, r.2.map (fun l => input :: l))
        | none => ([Message.NoEcho (toStringLossy m.msg)], none)
      else ([], none)
    else if m.msg_style = PAM_PROMPT_ECHO_ON then
      if pubs.headD false then
        match ans.headD none with
        | some input =>
          if hasNulByte input then ([Message.Echo (toStringLossy m.msg)], none)
          else
            let r := convLoop ms pubs.tail ans.tail
            (Message.Echo (toStringLossy m.msg) :: r.1, r.2.map (fun l => input :: l))
        | none => ([Message.Echo (toStringLossy m.msg)], none)
      else ([], none)
    else if m.msg_style = PAM_ERROR_MSG then
      if pubs.headD false then
        let r := convLoop ms pubs.tail ans
        (Message.Error (toStringLossy m.msg) :: r.1, r.2)
      else ([], none)
    else if m.msg_style = PAM_TEXT_INFO then
      if pubs.headD false then
        let r := convLoop ms pubs.tail ans
        (Message.Info (toStringLossy m.msg) :: r.1, r.2)
      else ([], none)
    else ([], none)

/-- Result of one `conv` invocation: the return code, the messages
delivered on `msg_tx`, and the response array written through `resp`
(`none` when the callback aborted before writing it). -/
structure ConvResult where
  ret : Int
  published : List Message
  responses : Option (List PamResponse)
deriving DecidableEq, Repr

/-- Response-array construction of `conv` (src/lib.rs lines 459-468): a
`calloc`-zeroed array of `num_msg` slots, then slot `i` receives the `i`-th
element of `reply_msgs` (`strdup`-ed, retcode 0) for each `i` below the
number of collected replies. -/
def buildResponses (n : Nat) (replies : List String) : List PamResponse :=
  (List.range n).map fun i =>
    match replies.get? i with
    | some r => { resp := some r, resp_retcode := 0 }
    | none => { resp := none, resp_retcode := 0 }

/-- The `conv` callback (src/lib.rs lines 357-473): reject a negative record
count with `PAM_CONV_ERR` (19), run the record loop, and on completion
allocate and fill the response array, returning `PAM_SUCCESS` (0); a loop
abort or a failed allocation returns 19. -/
def conv (num_msg : Int) (msgs : List PamMessage) (env : ConvEnv) : ConvResult :=
  if num_msg < 0 then { ret := 19, published := [], responses := none }
  else
    let r := convLoop msgs env.pubResults env.answers
    match r.2 with
    | none => { ret := 19, published := r.1, responses := none }
    | some replies =>
      if env.allocOK then
        { ret := 0, published := r.1,
          responses := some (buildResponses num_msg.toNat replies) }
      else { ret := 19, published := r.1, responses := none }

/-- Whether a style code is one of the four the bridge recognises
(src/lib.rs lines 380-448: the four arms of the `match` on `msg_style`). -/
def recognizedStyle (s : Int) : Bool :=
  s = PAM_PROMPT_ECHO_OFF || s = PAM_PROMPT_ECHO_ON ||
    s = PAM_ERROR_MSG || s = PAM_TEXT_INFO

/-- Whether a style code is one of the two prompt styles, which await a
client answer. -/
def isPromptStyle (s : Int) : Bool :=
  s = PAM_PROMPT_ECHO_OFF || s = PAM_PROMPT_ECHO_ON

/-- Success condition of the record loop, stated record by record: every
style is recognised, every publish is delivered within its bound, every
prompt obtains an answer within its bound, and no answer carries an interior
NUL. -/
def loopOK : List PamMessage → List Bool → List (Option String) → Bool
  | [], _, _ => true
  | m :: ms, pubs, ans =>
    recognizedStyle m.msg_style && pubs.headD false &&
      (if isPromptStyle m.msg_style then
        match ans.headD none with
        | some a => !hasNulByte a && loopOK ms pubs.tail ans.tail
        | none => false
      else loopOK ms pubs.tail ans)

/-- The message constructor the bridge publishes for a given style code and
(already lossily decoded) text, matching the four arms of `conv`. -/
def styleMessage (s : Int) (txt : String) : Option Message :=
  if s = PAM_PROMPT_ECHO_OFF then some (Message.NoEcho txt)
  else if s = PAM_PROMPT_ECHO_ON then some (Message.Echo txt)
  else if s = PAM_ERROR_MSG then some (Message.Error txt)
  else if s = PAM_TEXT_INFO then some (Message.Info txt)
  else none

/-- One invocation of the `conv` callback made by native code during
`pam_authenticate` or `pam_acct_mgmt`: its record count, records, and
channel/allocator environment. -/
structure ConvCall where
  num_msg : Int
  msgs : List PamMessage
  env : ConvEnv
deriving DecidableEq, Repr

/-- The messages a `conv` invocation delivers on `msg_tx`. -/
def convPublished (cc : ConvCall) : List Message :=
  (conv cc.num_msg cc.msgs cc.env).published

/-- Oracle describing one native session run by the worker loop
(src/lib.rs lines 300-349): whether `pam_start` returned 0, the `conv`
invocations native code made during `pam_authenticate` and whether it
returned 0, likewise for `pam_acct_mgmt`, and whether the worker's final
`msg_tx.send_blocking_timeout` of the terminal message was delivered. -/
structure SessionRun where
  startOK : Bool
  authCalls : List ConvCall
  authOK : Bool
  acctCalls : List ConvCall
  acctOK : Bool
  terminalSendOK : Bool
deriving DecidableEq, Repr

/-- The worker's terminal-message send, whose failure is discarded with
`.ok()` (src/lib.rs lines 328-330, 338-340, 347-349). -/
def termSend (r : SessionRun) (m : Message) : List Message :=
  if r.terminalSendOK then [m] else []

/-- The full sequence of messages delivered on a session's `msg_tx`, in
send order, mirroring the worker control flow (src/lib.rs lines 306-349):
nothing on open failure (the caller receives an error instead of a
`Conversation`); otherwise the messages of the `conv` calls made during
`pam_authenticate`, then on its failure the `AuthenticationFailed` terminal;
otherwise the messages of the `conv` calls made during `pam_acct_mgmt`, then
on its failure the `ValidationFailed` terminal, and on success the
`Authenticated` terminal. -/
def sessionTrace (r : SessionRun) : List Message :=
  if r.startOK = false then []
  else
    (r.authCalls.map convPublished).flatten ++
      (if r.authOK = false then termSend r Message.AuthenticationFailed
      else
        (r.acctCalls.map convPublished).flatten ++
          (if r.acctOK = false then termSend r Message.ValidationFailed
          else termSend r Message.Authenticated))

/-- The two Rust types involved in the lifetime of the per-session context:
the bridge-side `ConversationPam` and the client-side `Conversation`
(src/lib.rs lines 214-224). -/
inductive CtxType where
  | conversationPam : CtxType
  | conversation : CtxType
deriving DecidableEq, Repr

/-- The type at which the per-session context is allocated:
`Box::into_raw(Box::new(c_pam))` with `c_pam : ConversationPam`
(src/lib.rs line 301). -/
def ctxAllocType : CtxType := CtxType.conversationPam

/-- The reclamations of the per-session context performed on each exit of
the worker's session handling, with the type each `Box::from_raw` cast uses:
`cast::<Conversation>()` on `pam_start` failure (src/lib.rs line 315) and
`cast::<ConversationPam>()` on authentication failure, validation failure
and success (src/lib.rs lines 326, 336, 346). -/
def sessionFrees (r : SessionRun) : List CtxType :=
  if r.startOK = false then [CtxType.conversation]
  else if r.authOK = false then [CtxType.conversationPam]
  else if r.acctOK = false then [CtxType.conversationPam]
  else [CtxType.conversationPam]

/-- Outcome of the worker's handling of one dequeued request:
`failedBeforeNative e` models `res_tx.send(Err(e))` followed by `continue`
without any native call, and `session r` models reaching `pam_start` with
the given native behaviour. -/
inductive RequestOutcome where
  | failedBeforeNative : Error → RequestOutcome
  | session : SessionRun → RequestOutcome
deriving DecidableEq, Repr

/-- The request-intake phase of the worker loop (src/lib.rs lines 266-320):
`CString::new(auth.service)` failing delivers `Access("invalid service
name")`, then `CString::new(auth.login)` failing delivers `Access("invalid
user name")`, each with `continue` before any native call; otherwise the
native session proceeds. -/
def handleRequest (service login : String) (native : SessionRun) : RequestOutcome :=
  if hasNulByte service then RequestOutcome.failedBeforeNative (Error.Access "invalid service name")
  else if hasNulByte login then RequestOutcome.failedBeforeNative (Error.Access "invalid user name")
  else RequestOutcome.session native

end EasyPam

namespace EasyPam

/-- The record loop completes (returns `some` replies) exactly when the
record-by-record success condition `loopOK` holds. -/
theorem convLoop_isSome_eq (ms : List PamMessage) :
    ∀ pubs ans, ((convLoop ms pubs ans).2).isSome = loopOK ms pubs ans := by
  induction ms with
  | nil =>
    intro pubs ans
    rfl
  | cons m ms ih =>
    intro pubs ans
    by_cases h1 : m.msg_style = PAM_PROMPT_ECHO_OFF
    · cases hp : pubs.head?.getD false
      · simp +decide [convLoop, loopOK, recognizedStyle, isPromptStyle, h1, hp]
      · cases ha : ans.head?.getD none
        · simp +decide [convLoop, loopOK, recognizedStyle, isPromptStyle, h1, hp, ha]
        · rename_i a
          cases hn : hasNulByte a
          · simp +decide [convLoop, loopOK, recognizedStyle, isPromptStyle, h1, hp, ha, hn, ih]
          · simp +decide [convLoop, loopOK, recognizedStyle, isPromptStyle, h1, hp, ha, hn]
    · by_cases h2 : m.msg_style = PAM_PROMPT_ECHO_ON
      · cases hp : pubs.head?.getD false
        · simp +decide [convLoop, loopOK, recognizedStyle, isPromptStyle, h1, h2, hp]
        · cases ha : ans.head?.getD none
          · simp +decide [convLoop, loopOK, recognizedStyle, isPromptStyle, h1, h2, hp, ha]
          · rename_i a
            cases hn : hasNulByte a
            · simp +decide [convLoop, loopOK, recognizedStyle, isPromptStyle, h1, h2, hp, ha,
                hn, ih]
            · simp +decide [convLoop, loopOK, recognizedStyle, isPromptStyle, h1, h2, hp, ha, hn]
      · by_cases h3 : m.msg_style = PAM_ERROR_MSG
        · cases hp : pubs.head?.getD false
          · simp +decide [convLoop, loopOK, recognizedStyle, isPromptStyle, h1, h2, h3, hp]
          · simp +decide [convLoop, loopOK, recognizedStyle, isPromptStyle, h1, h2, h3, hp, ih]
        · by_cases h4 : m.msg_style = PAM_TEXT_INFO
          · cases hp : pubs.head?.getD false
            · simp +decide [convLoop, loopOK, recognizedStyle, isPromptStyle, h1, h2, h3, h4, hp]
            · simp +decide [convLoop, loopOK, recognizedStyle, isPromptStyle, h1, h2, h3, h4,
                hp, ih]
          · simp +decide [convLoop, loopOK, recognizedStyle, isPromptStyle, h1, h2, h3, h4]

/-- Every message the record loop delivers on `msg_tx` is non-terminal: the
loop only ever sends `NoEcho`, `Echo`, `Error` or `Info`. -/
theorem convLoop_published_nonTerminal (ms : List PamMessage) :
    ∀ pubs ans m, m ∈ (convLoop ms pubs ans).1 → m.isTerminal = false := by
  induction ms with
  | nil =>
    intro pubs ans m hm
    simp +decide [convLoop] at hm
  | cons mh ms ih =>
    intro pubs ans m hm
    by_cases h1 : mh.msg_style = PAM_PROMPT_ECHO_OFF
    · cases hp : pubs.head?.getD false
      · simp +decide [convLoop, h1, hp] at hm
      · cases ha : ans.head?.getD none
        · simp +decide [convLoop, h1, hp, ha] at hm
          subst hm; rfl
        · rename_i a
          cases hn : hasNulByte a
          · simp +decide [convLoop, h1, hp, ha, hn] at hm
            rcases hm with hm | hm
            · subst hm; rfl
            · exact ih _ _ _ hm
          · simp +decide [convLoop, h1, hp, ha, hn] at hm
            subst hm; rfl
    · by_cases h2 : mh.msg_style = PAM_PROMPT_ECHO_ON
      · cases hp : pubs.head?.getD false
        · simp +decide [convLoop, h1, h2, hp] at hm
        · cases ha : ans.head?.getD none
          · simp +decide [convLoop, h1, h2, hp, ha] at hm
            subst hm; rfl
          · rename_i a
            cases hn : hasNulByte a
            · simp +decide [convLoop, h1, h2, hp, ha, hn] at hm
              rcases hm with hm | hm
              · subst hm; rfl
              · exact ih _ _ _ hm
            · simp +decide [convLoop, h1, h2, hp, ha, hn] at hm
              subst hm; rfl
      · by_cases h3 : mh.msg_style = PAM_ERROR_MSG
        · cases hp : pubs.head?.getD false
          · simp +decide [convLoop, h1, h2, h3, hp] at hm
          · simp +decide [convLoop, h1, h2, h3, hp] at hm
            rcases hm with hm | hm
            · subst hm; rfl
            · exact ih _ _ _ hm
        · by_cases h4 : mh.msg_style = PAM_TEXT_INFO
          · cases hp : pubs.head?.getD false
            · simp +decide [convLoop, h1, h2, h3, h4, hp] at hm
            · simp +decide [convLoop, h1, h2, h3, h4, hp] at hm
              rcases hm with hm | hm
              · subst hm; rfl
              · exact ih _ _ _ hm
          · simp +decide [convLoop, h1, h2, h3, h4] at hm

/-- Every message a `conv` invocation publishes is non-terminal. -/
theorem conv_published_nonTerminal (n : Int) (msgs : List PamMessage) (env : ConvEnv) :
    ∀ m ∈ (conv n msgs env).published, m.isTerminal = false := by
  intro m hm
  by_cases hneg : n < 0
  · simp [conv, hneg] at hm
  · rcases hcl : convLoop msgs env.pubResults env.answers with ⟨pub, rep⟩
    have hpub : m ∈ (convLoop msgs env.pubResults env.answers).1 := by
      cases rep with
      | none =>
        simp [conv, hneg, hcl] at hm
        rw [hcl]
        exact hm
      | some replies =>
        cases hA : env.allocOK
        · simp [conv, hneg, hcl, hA] at hm
          rw [hcl]
          exact hm
        · simp [conv, hneg, hcl, hA] at hm
          rw [hcl]
          exact hm
    exact convLoop_published_nonTerminal msgs env.pubResults env.answers m hpub

/-- Every message in the concatenation of some `conv` invocations' outputs
is non-terminal. -/
theorem flatten_convPublished_nonTerminal (calls : List ConvCall) :
    ∀ m ∈ (calls.map convPublished).flatten, m.isTerminal = false := by
  intro m hm
  rcases List.mem_flatten.mp hm with ⟨l, hl, hml⟩
  rcases List.mem_map.mp hl with ⟨cc, _, rfl⟩
  exact conv_published_nonTerminal cc.num_msg cc.msgs cc.env m hml

/-- Dropping the last element of a non-terminal prefix followed by at most
one trailing message leaves only non-terminal messages. -/
theorem dropLast_append_nonTerminal (l1 l2 : List Message)
    (h1 : ∀ m ∈ l1, m.isTerminal = false) (h2 : l2 = [] ∨ ∃ t, l2 = [t]) :
    ∀ m ∈ (l1 ++ l2).dropLast, m.isTerminal = false := by
  intro m hm
  rcases h2 with h2 | ⟨t, h2⟩
  · subst h2
    rw [List.append_nil] at hm
    exact h1 m ((List.dropLast_sublist l1).subset hm)
  · subst h2
    rw [List.dropLast_concat] at hm
    exact h1 m hm

/-- The worker's terminal-message send produces at most one message. -/
theorem termSend_shape (r : SessionRun) (m : Message) :
    termSend r m = [] ∨ ∃ t, termSend r m = [t] := by
  cases h : r.terminalSendOK
  · exact Or.inl (by simp [termSend, h])
  · exact Or.inr ⟨m, by simp [termSend, h]⟩

/-- C8: the default configuration built by `AuthenticatorBuilder::new()` has
`workers = 1`, `queue_size = 10`, `timeout` of 5 seconds and `chat_timeout`
of 60 seconds. -/
theorem builder_new_defaults :
    AuthenticatorBuilder.new =
      { workers := 1
        queue_size := 10
        timeout := Duration.from_secs 5
        chat_timeout := Duration.from_secs 60 } := by
  rfl

/-- C2 counter-evidence: of the four style codes the bridge defines, only the
masked-prompt code equals the host stack's published value; the visible-prompt,
error-status and info-status codes all differ from the published convention
(code 0, 2, 3 versus published 2, 3, 4). -/
theorem style_codes_diverge_from_published :
    PAM_PROMPT_ECHO_OFF = published_PROMPT_ECHO_OFF ∧
    PAM_PROMPT_ECHO_ON ≠ published_PROMPT_ECHO_ON ∧
    PAM_ERROR_MSG ≠ published_ERROR_MSG ∧
    PAM_TEXT_INFO ≠ published_TEXT_INFO := by
  refine ⟨rfl, ?_, ?_, ?_⟩ <;> decide

/-- C7 counterexample: a failure to load the native library (or resolve a
native symbol) is classified as the `Library` variant, not the `Failed`
variant, at the concrete input of a library-load failure. -/
theorem library_failure_not_Failed :
    (classify (LowLevelFailure.libloadingErr "cannot open libpam.so.0")).isFailed
      = false := by
  decide

/-- C7 amended: a failure to load the native library or resolve any native
symbol is classified as the dedicated `Library` error variant, while internal
channel protocol violations (`rtsc` channel errors, oneshot receive errors)
are classified as `Failed`, oneshot receive timeouts as `Timeout`, and
OS-level I/O failures under the `Io` variant. -/
theorem classification_taxonomy :
    (∀ s, classify (LowLevelFailure.libloadingErr s) = Error.Library s) ∧
    (∀ s, classify (LowLevelFailure.rtscErr s) = Error.Failed s) ∧
    (∀ s, classify (LowLevelFailure.oneshotRecvErr s) = Error.Failed s) ∧
    classify LowLevelFailure.oneshotRecvTimeout = Error.Timeout ∧
    (∀ s, classify (LowLevelFailure.ioErr s) = Error.Io s) := by
  refine ⟨fun s => rfl, fun s => rfl, fun s => rfl, rfl, fun s => rfl⟩

/-- C4: the callback returns success (0) exactly when the record count is
representable as a non-negative count, every record has a recognised style,
every publish and every answer read completes within its bound, no answer
carries an interior NUL, and the response-array allocation succeeds; in every
other case it returns the conversation error 19, and it never returns any
other value. -/
theorem conv_success_iff (num_msg : Int) (msgs : List PamMessage) (env : ConvEnv) :
    ((conv num_msg msgs env).ret = 0 ↔
      0 ≤ num_msg ∧ loopOK msgs env.pubResults env.answers = true ∧ env.allocOK = true) ∧
    ((conv num_msg msgs env).ret = 0 ∨ (conv num_msg msgs env).ret = 19) := by
  have hiso := convLoop_isSome_eq msgs env.pubResults env.answers
  by_cases hneg : num_msg < 0
  · have h0 : ¬ (0 ≤ num_msg) := by omega
    simp [conv, hneg, h0]
  · have h0 : 0 ≤ num_msg := by omega
    rcases hcl : convLoop msgs env.pubResults env.answers with ⟨pub, rep⟩
    rw [hcl] at hiso
    cases rep with
    | none =>
      simp only [Option.isSome_none] at hiso
      simp [conv, hneg, hcl, h0, ← hiso]
    | some replies =>
      simp only [Option.isSome_some] at hiso
      cases hA : env.allocOK
      · simp [conv, hneg, hcl, h0, hA]
      · simp [conv, hneg, hcl, h0, hA, ← hiso]

/-- C3 failing input: on records `[info, visible prompt]` with the client
answering `"a"`, the callback succeeds but places the answer of the prompt
record (record index 1) in response slot 0 and leaves slot 1 null, instead
of placing it in slot 1 as the record-index-aligned PAM layout requires. -/
theorem reply_slot_misaligned :
    (conv 2 [⟨PAM_TEXT_INFO, [104]⟩, ⟨PAM_PROMPT_ECHO_ON, [112]⟩]
        ⟨[true, true], [some "a"], true⟩).ret = 0 ∧
    (conv 2 [⟨PAM_TEXT_INFO, [104]⟩, ⟨PAM_PROMPT_ECHO_ON, [112]⟩]
        ⟨[true, true], [some "a"], true⟩).responses =
      some [{ resp := some "a", resp_retcode := 0 },
            { resp := none, resp_retcode := 0 }] := by
  exact ⟨by decide, by decide⟩

/-- C10 failing input: on records `[error status, masked prompt]` with the
client answering `"s3cret"`, the callback succeeds but the response slot of
the error-status record (slot 0) holds the duplicated answer rather than a
null reply, while the prompt record's slot 1 is left null. -/
theorem status_slot_not_null :
    (conv 2 [⟨PAM_ERROR_MSG, [101]⟩, ⟨PAM_PROMPT_ECHO_OFF, [113]⟩]
        ⟨[true, true], [some "s3cret"], true⟩).ret = 0 ∧
    (conv 2 [⟨PAM_ERROR_MSG, [101]⟩, ⟨PAM_PROMPT_ECHO_OFF, [113]⟩]
        ⟨[true, true], [some "s3cret"], true⟩).responses =
      some [{ resp := some "s3cret", resp_retcode := 0 },
            { resp := none, resp_retcode := 0 }] := by
  exact ⟨by decide, by decide⟩

/-- C9: for any byte string, valid UTF-8 or not, a record with a recognised
style never aborts the callback on account of its text: the text is decoded
lossily and published as the corresponding message, and the callback
succeeds. -/
theorem lossy_text_never_aborts (sty : Int) (bs : List Nat) (m : Message)
    (h : styleMessage sty (toStringLossy bs) = some m) :
    (conv 1 [⟨sty, bs⟩] ⟨[true], [some "ans"], true⟩).ret = 0 ∧
    (conv 1 [⟨sty, bs⟩] ⟨[true], [some "ans"], true⟩).published = [m] := by
  unfold styleMessage at h
  split_ifs at h with h1 h2 h3 h4
  all_goals injection h with h
  all_goals subst h
  · constructor <;> simp +decide [conv, convLoop, h1, hasNulByte]
  · constructor <;> simp +decide [conv, convLoop, h1, h2, hasNulByte]
  · constructor <;> simp +decide [conv, convLoop, h1, h2, h3, hasNulByte]
  · constructor <;> simp +decide [conv, convLoop, h1, h2, h3, h4, hasNulByte]

/-- Witness for C9 at the concrete invalid UTF-8 byte string `[255, 254]`
published as an info status. -/
theorem lossy_text_never_aborts_witness :
    styleMessage PAM_TEXT_INFO (toStringLossy [255, 254]) =
      some (Message.Info (toStringLossy [255, 254])) ∧
    ((conv 1 [⟨PAM_TEXT_INFO, [255, 254]⟩] ⟨[true], [some "ans"], true⟩).ret = 0 ∧
      (conv 1 [⟨PAM_TEXT_INFO, [255, 254]⟩] ⟨[true], [some "ans"], true⟩).published =
        [Message.Info (toStringLossy [255, 254])]) :=
  ⟨by decide,
    lossy_text_never_aborts PAM_TEXT_INFO [255, 254]
      (Message.Info (toStringLossy [255, 254])) (by decide)⟩

/-- C5: on every session, every message delivered before the last one is
non-terminal, so the stream is zero or more non-terminal messages followed
by at most one terminal message, and nothing follows a terminal message. -/
theorem session_messages_terminal_last (r : SessionRun) (m : Message)
    (hm : m ∈ (sessionTrace r).dropLast) : m.isTerminal = false := by
  unfold sessionTrace at hm
  cases hS : r.startOK with
  | false => simp [hS] at hm
  | true =>
    simp only [hS] at hm
    norm_num at hm
    cases hA : r.authOK with
    | false =>
      simp only [hA] at hm
      norm_num at hm
      exact dropLast_append_nonTerminal _ _
        (flatten_convPublished_nonTerminal r.authCalls)
        (termSend_shape r Message.AuthenticationFailed) m hm
    | true =>
      simp only [hA] at hm
      norm_num at hm
      cases hV : r.acctOK with
      | false =>
        simp only [hV] at hm
        norm_num at hm
        rw [← List.append_assoc] at hm
        refine dropLast_append_nonTerminal _ _ ?_
          (termSend_shape r Message.ValidationFailed) m hm
        intro x hx
        rcases List.mem_append.mp hx with hx | hx
        · exact flatten_convPublished_nonTerminal r.authCalls x hx
        · exact flatten_convPublished_nonTerminal r.acctCalls x hx
      | true =>
        simp only [hV] at hm
        norm_num at hm
        rw [← List.append_assoc] at hm
        refine dropLast_append_nonTerminal _ _ ?_
          (termSend_shape r Message.Authenticated) m hm
        intro x hx
        rcases List.mem_append.mp hx with hx | hx
        · exact flatten_convPublished_nonTerminal r.authCalls x hx
        · exact flatten_convPublished_nonTerminal r.acctCalls x hx

/-- Witness for C5 at a concrete session publishing one info message during
authentication and then failing: the stream is the info message followed by
the terminal, and the one message before the terminal is non-terminal. -/
theorem session_messages_terminal_last_witness :
    Message.Info "h" ∈
      (sessionTrace ⟨true, [⟨1, [⟨PAM_TEXT_INFO, [104]⟩], ⟨[true], [], true⟩⟩],
        false, [], true, true⟩).dropLast ∧
    (Message.Info "h").isTerminal = false :=
  ⟨by decide,
    session_messages_terminal_last
      ⟨true, [⟨1, [⟨PAM_TEXT_INFO, [104]⟩], ⟨[true], [], true⟩⟩], false, [], true, true⟩
      (Message.Info "h") (by decide)⟩

/-- C1 failing input: on the open-failure exit (`pam_start` non-zero) the
context is reclaimed as the client-side `Conversation` type although it was
allocated as `ConversationPam`; every other exit reclaims it once as the
allocated type. -/
theorem open_failure_reclaims_wrong_type :
    sessionFrees ⟨false, [], true, [], true, true⟩ = [CtxType.conversation] ∧
    CtxType.conversation ≠ ctxAllocType ∧
    sessionFrees ⟨true, [], false, [], true, true⟩ = [ctxAllocType] ∧
    sessionFrees ⟨true, [], true, [], false, true⟩ = [ctxAllocType] ∧
    sessionFrees ⟨true, [], true, [], true, true⟩ = [ctxAllocType] := by
  refine ⟨rfl, by decide, rfl, rfl, rfl⟩

/-- C6: whenever the dequeued request's service or login string contains an
interior NUL and so cannot be converted to a native C string, the worker
delivers an `Access` error to the request's result slot and proceeds to the
next request without any native call. -/
theorem invalid_name_fails_before_native (service login : String) (native : SessionRun)
    (h : hasNulByte service = true ∨ hasNulByte login = true) :
    ∃ msg, handleRequest service login native =
      RequestOutcome.failedBeforeNative (Error.Access msg) := by
  by_cases hs : hasNulByte service = true
  · exact ⟨"invalid service name", by simp [handleRequest, hs]⟩
  · have hl : hasNulByte login = true := by
      rcases h with h | h
      · exact absurd h hs
      · exact h
    exact ⟨"invalid user name", by simp [handleRequest, hs, hl]⟩

/-- Witness for C6 at a service name consisting of a single NUL character. -/
theorem invalid_name_fails_before_native_witness :
    (hasNulByte (String.mk [Char.ofNat 0]) = true ∨ hasNulByte "root" = true) ∧
    ∃ msg, handleRequest (String.mk [Char.ofNat 0]) "root" ⟨true, [], true, [], true, true⟩ =
      RequestOutcome.failedBeforeNative (Error.Access msg) :=
  ⟨Or.inl (by decide),
    invalid_name_fails_before_native (String.mk [Char.ofNat 0]) "root"
      ⟨true, [], true, [], true, true⟩ (Or.inl (by decide))⟩

end EasyPam

